import Mathlib

deriving instance DecidableEq for Except

/-!
Shallow embedding of the OpenTogetherTube room API sources:
`src/server/api/room.ts`, `src/common/models/types.ts` and the message
model, together with theorems checking the specification's claims about
them.  Definitions follow the TypeScript source; where a definition has
to be reconstructed from the specification because the corresponding
module is not among the sources, its doc comment says so explicitly.
-/

namespace OTT

/-! ### Enums from `src/common/models/types.ts` -/

/-- `Visibility` enum (`types.ts`): `public`, `unlisted`, `private`.
`private` is a Lean keyword, so the last constructor is named `priv`. -/
inductive Visibility
  | public
  | unlisted
  | priv
deriving DecidableEq, Repr

/-- `QueueMode` enum (`types.ts`). -/
inductive QueueMode
  | manual
  | vote
  | loop
  | dj
deriving DecidableEq, Repr

/-- `PlayerStatus` enum (`types.ts`). -/
inductive PlayerStatus
  | none
  | ready
  | buffering
  | error
deriving DecidableEq, Repr

/-- `Role` enum (`types.ts` lines 90–97). The numeric values are in
`Role.num` below. -/
inductive Role
  | administrator
  | moderator
  | trustedUser
  | registeredUser
  | unregisteredUser
  | owner
deriving DecidableEq, Fintype, Repr

/-- The numeric values assigned by the `Role` enum in `types.ts`:
`Administrator = 4, Moderator = 3, TrustedUser = 2, RegisteredUser = 1,
UnregisteredUser = 0, Owner = -1`. -/
def Role.num : Role → Int
  | .administrator => 4
  | .moderator => 3
  | .trustedUser => 2
  | .registeredUser => 1
  | .unregisteredUser => 0
  | .owner => -1

/-- Modelled from the spec: the derived role hierarchy
"Owner > Administrator > Moderator > TrustedUser > RegisteredUser >
UnregisteredUser" (§3 Client).  The hierarchy itself is prose in the
spec; this rank function realises it with Owner highest. -/
def Role.hierarchyRank : Role → Nat
  | .owner => 5
  | .administrator => 4
  | .moderator => 3
  | .trustedUser => 2
  | .registeredUser => 1
  | .unregisteredUser => 0

/-- Modelled from the spec: Grants maps a permission to a
"minimum-role-or-explicit-grant" (§3 Grants); a role is allowed a
permission when it is at least the permission's minimum role in the
hierarchy.  The `Grants` implementation (`server/permissions`) is not
among the sources; only its declaration `class Grants { masks: any }`
is. -/
def isAllowed {α : Type} (minRole : α → Role) (r : Role) (p : α) : Bool :=
  decide ((minRole p).hierarchyRank ≤ r.hierarchyRank)

/-! ### Value objects -/

/-- A playable video descriptor; only identity matters for these claims. -/
structure Video where
  service : String
  id : String
deriving DecidableEq, Repr

/-- An authenticated account, consumed as an opaque `{id, username}`. -/
structure User where
  id : Nat
  username : String
deriving DecidableEq, Repr

/-- `RoomUserInfo` (`types.ts`). -/
structure RoomUserInfo where
  id : String
  name : String
  isLoggedIn : Bool
  status : PlayerStatus
  role : Role
deriving DecidableEq, Repr

/-- `Grants` data as declared in `types.ts` (`masks: any`); modelled as
an association list from role number to permission bitmask. -/
structure Grants where
  masks : List (Int × Nat)
deriving DecidableEq, Repr

/-! ### `RoomState` (`types.ts` lines 40–74) -/

/-- The stored fields of `RoomState` (`RoomOptions` + `RoomSettings` +
state).  The computed fields `hasOwner` and `voteCounts`
(`RoomStateComputed`) are functions below, since `types.ts` documents
them as computed. `votes` is a map from video identity to the set of
client ids. -/
structure RoomState where
  name : String
  title : String
  description : String
  visibility : Visibility
  queueMode : QueueMode
  grants : Grants
  isTemporary : Bool
  owner : Option User
  userRoles : List (Role × List Nat)
  currentSource : Option Video
  queue : List Video
  isPlaying : Bool
  playbackPosition : Nat
  users : List RoomUserInfo
  votes : List (String × List String)
deriving DecidableEq, Repr

/-- `hasOwner` of `RoomStateComputed`: whether the room has an owner. -/
def RoomState.hasOwner (r : RoomState) : Bool :=
  r.owner.isSome

/-- `voteCounts` of `RoomStateComputed`: per-video vote totals derived
from `votes`. -/
def RoomState.voteCounts (r : RoomState) : List (String × Nat) :=
  r.votes.map (fun p => (p.1, p.2.length))

/-- `RoomStateSyncable = Omit<RoomState, "owner" | "votes" | "userRoles"
| "grants">` (`types.ts` line 77): exactly the fields sent to clients,
including the computed `hasOwner` and `voteCounts`. -/
structure RoomStateSyncable where
  name : String
  title : String
  description : String
  visibility : Visibility
  queueMode : QueueMode
  isTemporary : Bool
  currentSource : Option Video
  queue : List Video
  isPlaying : Bool
  playbackPosition : Nat
  users : List RoomUserInfo
  hasOwner : Bool
  voteCounts : List (String × Nat)
deriving DecidableEq, Repr

/-- Projection of a room state onto its syncable fields, per the
`RoomStateSyncable` type: the `owner`, `votes`, `userRoles` and `grants`
fields are dropped, everything else (including the computed fields) is
kept. -/
def toSyncable (r : RoomState) : RoomStateSyncable :=
  { name := r.name
    title := r.title
    description := r.description
    visibility := r.visibility
    queueMode := r.queueMode
    isTemporary := r.isTemporary
    currentSource := r.currentSource
    queue := r.queue
    isPlaying := r.isPlaying
    playbackPosition := r.playbackPosition
    users := r.users
    hasOwner := r.hasOwner
    voteCounts := r.voteCounts }

/-! ### Errors and the API error handler (`src/server/api/room.ts`) -/

/-- Errors thrown inside the route handlers.  `badApiArgument` is
`BadApiArgumentException(arg, reason)`; `ottOther` is any other
`OttException` subclass (`name`, `message`); `plainError` is any value
that is not an `OttException` (it may carry internal text and a stack
trace, which the error handler must not leak). -/
inductive ApiError
  | badApiArgument (arg reason : String)
  | ottOther (name message : String)
  | plainError (name message stack : String)
deriving DecidableEq, Repr

/-- Whether the error is an `OttException` (`err instanceof OttException`). -/
def ApiError.isOtt : ApiError → Bool
  | .plainError _ _ _ => false
  | _ => true

/-- The `name` property of the error. -/
def ApiError.errName : ApiError → String
  | .badApiArgument _ _ => "BadApiArgumentException"
  | .ottOther n _ => n
  | .plainError n _ _ => n

/-- JSON error body sent by the route error handler. -/
structure ErrorBody where
  name : String
  message : String
  arg : Option String
  reason : Option String
deriving DecidableEq, Repr

/-- An HTTP error response: status code plus JSON body. -/
structure ErrResponse where
  status : Nat
  success : Bool
  error : ErrorBody
deriving DecidableEq, Repr

/-- `errorHandler` (`room.ts` lines 255–291): a `BadApiArgumentException`
becomes a 400 with `name`, `message`, `arg`, `reason`; any other
`OttException` becomes a 400 with its `name` and `message`; anything
else becomes a 500 with the fixed name `"Unknown"` and a fixed generic
message (the error's own name, message and stack only go to the log).
The message of a `BadApiArgumentException` is built from its `arg` and
`reason` (the `exceptions` module is not among the sources). -/
def errorHandler : ApiError → ErrResponse
  | .badApiArgument arg reason =>
    { status := 400, success := false
      error := { name := "BadApiArgumentException"
                 message := arg ++ ": " ++ reason
                 arg := some arg, reason := some reason } }
  | .ottOther n m =>
    { status := 400, success := false
      error := { name := n, message := m, arg := none, reason := none } }
  | .plainError _ _ _ =>
    { status := 500, success := false
      error := { name := "Unknown"
                 message := "An unknown error occured. Try again later."
                 arg := none, reason := none } }

/-! ### `createRoom` (`room.ts` lines 68–121) -/

/-- The reserved room names (`RESERVED_ROOM_NAMES`, `room.ts` 18–22). -/
def RESERVED_ROOM_NAMES : List String :=
  ["list", "create", "generate"]

/-- JavaScript truthiness of an optional string: `undefined` and `""`
are falsy. -/
def strTruthy : Option String → Bool
  | none => false
  | some s => s != ""

/-- Membership test for `VALID_ROOM_VISIBILITY.includes` on the raw
string value: returns the parsed `Visibility` when the string is one of
the enum's values. -/
def visibilityFromString : String → Option Visibility
  | "public" => some .public
  | "unlisted" => some .unlisted
  | "private" => some .priv
  | _ => none

/-- Membership test for `VALID_ROOM_QUEUE_MODE.includes` on the raw
string value. -/
def queueModeFromString : String → Option QueueMode
  | "manual" => some .manual
  | "vote" => some .vote
  | "loop" => some .loop
  | "dj" => some .dj
  | _ => none

/-- One character atom of the source regex `/^[A-za-z0-9_-]+$/`
(`room.ts` line 81), atom by atom: the range `A-z` (codes 65–122),
the range `a-z` (97–122), the range `0-9` (48–57), `_` (95), `-` (45). -/
def regexCharOk (c : Char) : Bool :=
  (65 ≤ c.toNat && c.toNat ≤ 122) ||
  (97 ≤ c.toNat && c.toNat ≤ 122) ||
  (48 ≤ c.toNat && c.toNat ≤ 57) ||
  c.toNat == 95 || c.toNat == 45

/-- Whether `/^[A-za-z0-9_-]+$/.exec(s)` matches: at least one
character, and every character matches the class. -/
def nameRegexMatches (s : String) : Bool :=
  s.length != 0 && s.toList.all regexCharOk

/-- Follows the spec's words (refinement reference, not the source):
room-name characters must come from `[A-Za-z0-9_-]` (spec §6). -/
def specCharOk (c : Char) : Bool :=
  ( 'A' ≤ c && c ≤ 'Z') ||
  ( 'a' ≤ c && c ≤ 'z') ||
  ( '0' ≤ c && c ≤ '9') ||
  c.toNat == 95 || c.toNat == 45

/-- The request body of `POST /api/room/create`: the fields `createRoom`
reads.  `Option` models an absent (`undefined`) field. -/
structure CreateBody where
  name : Option String
  visibility : Option String
  temporary : Option Bool
  isTemporary : Option Bool
deriving DecidableEq, Repr

/-- Outcome of `rateLimiter.consume`: success, a rate-limit rejection
(the rejection value is not an `Error` instance, so `createRoom` replies
via `handleRateLimit`), or a genuine `Error` (re-thrown). -/
inductive RLOutcome
  | ok
  | limited
  | failure
deriving DecidableEq, Repr

/-- Observable calls `createRoom` makes to its collaborators, in order:
the rate-limit consumption (with the points charged and whether it
succeeded) and `roommanager.CreateRoom` (with the options passed). -/
inductive CreateEvent
  | rateLimitConsumed (points : Nat) (ok : Bool)
  | roomManagerCreateRoom (name : String) (isTemporary : Bool)
      (visibility : Visibility) (owner : Option User)
deriving DecidableEq, Repr

/-- Successful responses of `createRoom`. -/
inductive CreateResponse
  | created
  | rateLimited
deriving DecidableEq, Repr

/-- The guard chain of `createRoom` (`room.ts` 69–86): the first
`BadApiArgumentException` thrown, in source order — missing name (JS
falsiness, so `undefined` or `""`), reserved name, too short, too long,
regex mismatch, invalid visibility — or `none` when all checks pass. -/
def createRoomValidationError (body : CreateBody) : Option ApiError :=
  match body.name with
  | none => some (.badApiArgument "name" "missing")
  | some nm =>
    if nm == "" then
      some (.badApiArgument "name" "missing")
    else if RESERVED_ROOM_NAMES.contains nm then
      some (.badApiArgument "name" "not allowed (reserved)")
    else if nm.length < 3 then
      some (.badApiArgument "name"
        "not allowed (too short, must be at least 3 characters)")
    else if nm.length > 32 then
      some (.badApiArgument "name"
        "not allowed (too long, must be at most 32 characters)")
    else if !nameRegexMatches nm then
      some (.badApiArgument "name" "not allowed (invalid characters)")
    else if strTruthy body.visibility &&
        (body.visibility.bind visibilityFromString).isNone then
      some (.badApiArgument "visibility" "must be one of")
    else none

/-- `createRoom` (`room.ts` 68–121), as a function of the request body,
the rate limiter's outcome and the authenticated user, returning the
response (or thrown error) together with the trace of collaborator
calls.  After the guard chain, the points are computed (50, quadrupled
to 200 for non-temporary rooms), the rate limiter is consumed, and only
then is `roommanager.CreateRoom` invoked. -/
def createRoom (body : CreateBody) (rl : RLOutcome) (user : Option User) :
    Except ApiError CreateResponse × List CreateEvent :=
  match createRoomValidationError body with
  | some e => (.error e, [])
  | none =>
    let isTemp : Bool :=
      match body.temporary with
      | some b => b
      | none => body.isTemporary.getD false
    let points : Nat := if isTemp then 50 else 200
    let vis : Visibility :=
      match body.visibility.bind visibilityFromString with
      | some v => v
      | none => .public
    match rl with
    | .limited =>
      (.ok .rateLimited, [.rateLimitConsumed points false])
    | .failure =>
      (.error (.plainError "Error" "rate limiter internal failure" "stack"),
        [.rateLimitConsumed points false])
    | .ok =>
      (.ok .created,
        [.rateLimitConsumed points true,
         .roomManagerCreateRoom (body.name.getD "") isTemp vis user])

/-! ### `patchRoom` (`room.ts` lines 123–196) and the settings request -/

/-- `Partial<RoomSettings>` (`types.ts` 40–46): the payload of an
`ApplySettingsRequest` after the route handler has parsed the enum
fields. -/
structure SettingsPayload where
  title : Option String
  description : Option String
  visibility : Option Visibility
  queueMode : Option QueueMode
  grants : Option Grants
deriving DecidableEq, Repr

/-- Modelled from the spec: `Room.processRequest`'s handling of
`ApplySettings` — "validates each field (visibility/queueMode enums,
string lengths) independently so partial application is atomic
per-field; merges into Room attributes" (§4.1).  The `Room` class is not
among the sources, only its callers are.  The concrete string length
bounds are not stated in the spec, so they are parameters.  On any
validation failure nothing is merged. -/
def applySettings (titleMax descMax : Nat) (s : SettingsPayload)
    (room : RoomState) : Except ApiError RoomState :=
  if (s.title.map String.length).getD 0 > titleMax then
    .error (.ottOther "ValidationError" "title too long")
  else if (s.description.map String.length).getD 0 > descMax then
    .error (.ottOther "ValidationError" "description too long")
  else
    .ok { room with
          title := s.title.getD room.title
          description := s.description.getD room.description
          visibility := s.visibility.getD room.visibility
          queueMode := s.queueMode.getD room.queueMode
          grants := s.grants.getD room.grants }

/-- The request body of `PATCH /api/room/:name`: the fields `patchRoom`
reads.  `permissions` is the legacy alias that is renamed to `grants`
(`room.ts` 131–134). -/
structure PatchBody where
  visibility : Option String
  queueMode : Option String
  title : Option String
  description : Option String
  permissions : Option Grants
  grants : Option Grants
  claim : Bool
deriving DecidableEq, Repr

/-- The settings payload `patchRoom` builds from the body: enum strings
parsed, and `grants` taken from `permissions` when that alias is
present (`room.ts` 131–136, 150–154). -/
def settingsOf (body : PatchBody) : SettingsPayload :=
  { title := body.title
    description := body.description
    visibility := body.visibility.bind visibilityFromString
    queueMode := body.queueMode.bind queueModeFromString
    grants :=
      match body.permissions with
      | some g => some g
      | none => body.grants }

/-- Observable calls the mutating route handlers make, in order:
resolving the client through `clientmanager.getClient`, delivering a
room request directly via `room.processRequest`, delivering it through
the routing layer via `client.makeRoomRequest`, and
`storage.updateRoom` with the room that is persisted. -/
inductive ApiEvent
  | getClient
  | processRequestDirect
  | makeRoomRequest
  | storageUpdateRoom (room : RoomState)
deriving DecidableEq, Repr

/-- Non-thrown outcomes of `patchRoom`: 200 success, the 401
"Must be logged in to claim room ownership." reply, and the 500 reply
when `storage.updateRoom` fails. -/
inductive PatchResponse
  | success
  | unauthorized
  | storageFailed
deriving DecidableEq, Repr

/-- The guard chain of `patchRoom` (`room.ts` 124–146): the first
`BadApiArgumentException` thrown, in source order — invalid visibility,
invalid queueMode, then the claim pre-checks against the loaded room
(claiming a temporary room, claiming a room that already has an
owner) — or `none` when all checks pass. -/
def patchGuardError (body : PatchBody) (room : RoomState) : Option ApiError :=
  if strTruthy body.visibility &&
      (body.visibility.bind visibilityFromString).isNone then
    some (.badApiArgument "visibility" "must be one of")
  else if strTruthy body.queueMode &&
      (body.queueMode.bind queueModeFromString).isNone then
    some (.badApiArgument "queueMode" "must be one of")
  else if body.claim && room.isTemporary then
    some (.badApiArgument "claim" "Cant claim temporary rooms.")
  else if body.claim && room.owner.isSome then
    some (.badApiArgument "claim" "Room already has owner.")
  else none

/-- `patchRoom` (`room.ts` 123–196) as a function of the body, the
authenticated user, whether the storage call succeeds, and the room
returned by `roommanager.GetRoom`.  Returns the outcome (or thrown
error), the room state afterwards, and the trace of collaborator
calls.  After the guard chain: `clientmanager.getClient`, direct
`room.processRequest` with the `ApplySettingsRequest` (the FIXME at
line 149 notes this skips the routing layer), then for non-temporary
rooms the claim/owner update (401 when unauthenticated) and
`storage.updateRoom` (500 reply when it throws, the in-memory room
keeping the applied settings either way). -/
def patchRoomStep (titleMax descMax : Nat) (body : PatchBody)
    (user : Option User) (storageOk : Bool) (room : RoomState) :
    Except ApiError PatchResponse × RoomState × List ApiEvent :=
  match patchGuardError body room with
  | some e => (.error e, room, [])
  | none =>
    match applySettings titleMax descMax (settingsOf body) room with
    | .error e => (.error e, room, [.getClient, .processRequestDirect])
    | .ok room2 =>
      if room2.isTemporary then
        (.ok .success, room2, [.getClient, .processRequestDirect])
      else if body.claim && room2.owner.isNone then
        match user with
        | none =>
          (.ok .unauthorized, room2, [.getClient, .processRequestDirect])
        | some u =>
          let room3 := { room2 with owner := some u }
          ((if storageOk then .ok .success else .ok .storageFailed),
            room3,
            [.getClient, .processRequestDirect, .storageUpdateRoom room3])
      else
        ((if storageOk then .ok .success else .ok .storageFailed),
          room2,
          [.getClient, .processRequestDirect, .storageUpdateRoom room2])

/-- A sequence of `PATCH /api/room/:name` requests applied to one room:
each step carries its body, its authenticated user and its storage
outcome.  The trace is the concatenation of the steps' traces;
`patchRoom` is the only source path that writes to storage. -/
def runPatchSeq (titleMax descMax : Nat)
    (steps : List (PatchBody × Option User × Bool)) (room : RoomState) :
    RoomState × List ApiEvent :=
  match steps with
  | [] => (room, [])
  | (b, u, so) :: rest =>
    let step := patchRoomStep titleMax descMax b u so room
    let next := runPatchSeq titleMax descMax rest step.2.1
    (next.1, step.2.2 ++ next.2)

/-- `undoEvent` (`room.ts` 198–211): resolves the client, then delivers
the `UndoRequest` through `client.makeRoomRequest`.  When `body.data`
is absent, reading `body.data.event` throws a `TypeError` (not an
`OttException`) after the client was already resolved. -/
def undoEvent (data : Option Nat) : Except ApiError Unit × List ApiEvent :=
  match data with
  | none =>
    (.error (.plainError "TypeError"
      "Cannot read properties of undefined (reading event)" "stack"),
      [.getClient])
  | some _ => (.ok (), [.getClient, .makeRoomRequest])

/-- `addVote` (`room.ts` 213–232): validates `service` and `id`
(truthiness), resolves the client, then delivers the `VoteRequest`
through `client.makeRoomRequest`. -/
def addVote (service id : Option String) :
    Except ApiError Unit × List ApiEvent :=
  if !strTruthy service then
    (.error (.badApiArgument "service" "missing"), [])
  else if !strTruthy id then
    (.error (.badApiArgument "id" "missing"), [])
  else (.ok (), [.getClient, .makeRoomRequest])

/-- `removeVote` (`room.ts` 234–253): same shape as `addVote` with
`add: false`. -/
def removeVote (service id : Option String) :
    Except ApiError Unit × List ApiEvent :=
  if !strTruthy service then
    (.error (.badApiArgument "service" "missing"), [])
  else if !strTruthy id then
    (.error (.badApiArgument "id" "missing"), [])
  else (.ok (), [.getClient, .makeRoomRequest])

/-! ### `GET /api/room/list` (`room.ts` lines 37–66) -/

/-- One entry of the room list response (`room.ts` 52–61). -/
structure RoomListItem where
  name : String
  title : String
  description : String
  isTemporary : Bool
  visibility : Visibility
  queueMode : QueueMode
  currentSource : Option Video
  users : Nat
deriving DecidableEq, Repr

/-- The list entry built for one room: `users` is the number of
connected clients. -/
def roomListItem (r : RoomState) : RoomListItem :=
  { name := r.name
    title := r.title
    description := r.description
    isTemporary := r.isTemporary
    visibility := r.visibility
    queueMode := r.queueMode
    currentSource := r.currentSource
    users := r.users.length }

/-- The ordering used by `_.orderBy(rooms, ["users", "name"],
["desc", "asc"])`: more connected users first, ties broken by name
ascending. -/
def listItemOrder (a b : RoomListItem) : Prop :=
  b.users < a.users ∨ (a.users = b.users ∧ a.name ≤ b.name)

instance : DecidableRel listItemOrder := fun a b => by
  unfold listItemOrder; infer_instance

instance : IsTotal RoomListItem listItemOrder where
  total a b := by
    unfold listItemOrder
    rcases Nat.lt_trichotomy a.users b.users with h | h | h
    · exact Or.inr (Or.inl h)
    · rcases le_total a.name b.name with hn | hn
      · exact Or.inl (Or.inr ⟨h, hn⟩)
      · exact Or.inr (Or.inr ⟨h.symm, hn⟩)
    · exact Or.inl (Or.inl h)

instance : IsTrans RoomListItem listItemOrder where
  trans a b c hab hbc := by
    unfold listItemOrder at *
    rcases hab with h1 | ⟨h1, h1n⟩ <;> rcases hbc with h2 | ⟨h2, h2n⟩
    · exact Or.inl (by omega)
    · exact Or.inl (by omega)
    · exact Or.inl (by omega)
    · exact Or.inr ⟨by omega, h1n.trans h2n⟩

/-- Result of the list endpoint: the 400 `"apikey is invalid"` reply, or
the JSON list of rooms. -/
inductive ListResult
  | invalidApiKey
  | ok (rooms : List RoomListItem)
deriving DecidableEq, Repr

/-- The `GET /list` handler (`room.ts` 37–66) as a function of the
configured API key (`process.env.OPENTOGETHERTUBE_API_KEY`, `none` when
unset), the request's `apikey` header (`none` when absent) and the
loaded rooms.  `isAuthorized` is strict equality of header and
environment value — `undefined === undefined` holds, so with no key
configured a request with no header is authorized.  Non-public rooms
are filtered out for unauthorized callers, and the result is ordered by
users descending then name ascending. -/
def listRooms (envKey : Option String) (hdr : Option String)
    (rooms : List RoomState) : ListResult :=
  let isAuthorized := hdr == envKey
  if strTruthy hdr && !isAuthorized then
    .invalidApiKey
  else
    .ok (List.insertionSort listItemOrder
      ((rooms.filter
        (fun r => r.visibility == Visibility.public || isAuthorized)).map
        roomListItem))

/-! ### Shared concrete data for witnesses -/

/-- The `message` carried by each error, as surfaced by the handler. -/
def ApiError.errMessage : ApiError → String
  | .badApiArgument a r => a ++ ": " ++ r
  | .ottOther _ m => m
  | .plainError _ m _ => m

/-- A concrete permanent, ownerless, public room used to instantiate
universally quantified theorems. -/
def sampleRoom : RoomState :=
  { name := "foo"
    title := "a title"
    description := ""
    visibility := .public
    queueMode := .manual
    grants := ⟨[]⟩
    isTemporary := false
    owner := none
    userRoles := []
    currentSource := none
    queue := []
    isPlaying := false
    playbackPosition := 0
    users := []
    votes := [] }

/-! ### Helper lemmas about the patch path -/

/-- A successful `applySettings` only merges settings fields: `owner`
and `isTemporary` are untouched. -/
lemma applySettings_ok_fields {tM dM : Nat} {s : SettingsPayload}
    {room room2 : RoomState}
    (h : applySettings tM dM s room = .ok room2) :
    room2.owner = room.owner ∧ room2.isTemporary = room.isTemporary := by
  unfold applySettings at h
  split at h
  · exact absurd h (by simp)
  split at h
  · exact absurd h (by simp)
  injection h with h2
  subst h2
  exact ⟨rfl, rfl⟩

/-- Claiming a temporary room trips the guard chain with a
`BadApiArgumentException`. -/
lemma patchGuardError_claim_temporary {body : PatchBody} {room : RoomState}
    (hc : body.claim = true) (ht : room.isTemporary = true) :
    ∃ a r, patchGuardError body room = some (.badApiArgument a r) := by
  unfold patchGuardError
  split
  · exact ⟨_, _, rfl⟩
  split
  · exact ⟨_, _, rfl⟩
  split
  · exact ⟨_, _, rfl⟩
  split
  · exact ⟨_, _, rfl⟩
  · simp_all

/-- Claiming a room that already has an owner trips the guard chain
with a `BadApiArgumentException`. -/
lemma patchGuardError_claim_owned {body : PatchBody} {room : RoomState}
    {u : User} (hc : body.claim = true) (ho : room.owner = some u) :
    ∃ a r, patchGuardError body room = some (.badApiArgument a r) := by
  unfold patchGuardError
  split
  · exact ⟨_, _, rfl⟩
  split
  · exact ⟨_, _, rfl⟩
  split
  · exact ⟨_, _, rfl⟩
  split
  · exact ⟨_, _, rfl⟩
  · simp_all

/-- When the guard chain throws, `patchRoom` rethrows it before any
collaborator call, leaving the room untouched. -/
lemma patchRoomStep_guard_some {tM dM : Nat} {body : PatchBody}
    {user : Option User} {so : Bool} {room : RoomState} {e : ApiError}
    (hg : patchGuardError body room = some e) :
    patchRoomStep tM dM body user so room = (.error e, room, []) := by
  unfold patchRoomStep
  rw [hg]

/-- Every room passed to `storage.updateRoom` by one `patchRoom` call
is non-temporary: the storage call sits under the
`if (!room.isTemporary)` guard, and the settings merge cannot change
`isTemporary`. -/
lemma patchRoomStep_storage_not_temporary {tM dM : Nat} {body : PatchBody}
    {user : Option User} {so : Bool} {room r : RoomState}
    (h : ApiEvent.storageUpdateRoom r ∈
      (patchRoomStep tM dM body user so room).2.2) :
    r.isTemporary = false := by
  unfold patchRoomStep at h
  cases hg : patchGuardError body room with
  | some e => rw [hg] at h; simp at h
  | none =>
    rw [hg] at h
    cases ha : applySettings tM dM (settingsOf body) room with
    | error e => rw [ha] at h; simp at h
    | ok room2 =>
      rw [ha] at h
      cases h2 : room2.isTemporary with
      | true => simp [h2] at h
      | false =>
        simp only [h2] at h
        cases hc : (body.claim && room2.owner.isNone) with
        | false =>
          simp [hc] at h
          rw [h]
          exact h2
        | true =>
          cases user with
          | none => simp [hc] at h
          | some u =>
            simp [hc] at h
            simp_all

/-- The trace of one `patchRoom` call is either empty (guard failure)
or starts with the client resolution followed immediately by the direct
`room.processRequest` delivery. -/
lemma patchRoomStep_trace_shape (tM dM : Nat) (body : PatchBody)
    (user : Option User) (so : Bool) (room : RoomState) :
    (patchRoomStep tM dM body user so room).2.2 = [] ∨
    ∃ rest, (patchRoomStep tM dM body user so room).2.2 =
      ApiEvent.getClient :: ApiEvent.processRequestDirect :: rest := by
  unfold patchRoomStep
  cases hg : patchGuardError body room with
  | some e => exact Or.inl rfl
  | none =>
    cases ha : applySettings tM dM (settingsOf body) room with
    | error e => exact Or.inr ⟨[], rfl⟩
    | ok room2 =>
      cases h2 : room2.isTemporary with
      | true => exact Or.inr ⟨[], by simp [h2]⟩
      | false =>
        cases hc : (body.claim && room2.owner.isNone) with
        | false =>
          exact Or.inr ⟨[ApiEvent.storageUpdateRoom room2], by simp [h2, hc]⟩
        | true =>
          cases user with
          | none => exact Or.inr ⟨[], by simp [h2, hc]⟩
          | some u =>
            exact Or.inr
              ⟨[ApiEvent.storageUpdateRoom { room2 with owner := some u }],
                by simp [h2, hc]⟩

/-! ## Claims -/

/-- C1: the spec claims a create-room name is accepted only if it is
3–32 characters from `[A-Za-z0-9_-]` and not reserved, and that a name
with a character outside that set is rejected.  The code's regex is
`/^[A-za-z0-9_-]+$/`: the first range is `A-z` (codes 65–122), which
also covers `[ \ ] ^ _` and the backtick, so `CreateRoom(name="ab^")`
is accepted and the room is created, although `^` is outside
`[A-Za-z0-9_-]` — the evident intent (`A-Za-z`, matching the redundant
`a-z` atom and the spec) makes this a slip in the code.  The too-short
and reserved scenarios behave as claimed. -/
theorem createRoom_name_charset_bug :
    (createRoom ⟨some "ab^", none, none, none⟩ RLOutcome.ok none =
      (Except.ok CreateResponse.created,
        [CreateEvent.rateLimitConsumed 200 true,
         CreateEvent.roomManagerCreateRoom "ab^" false Visibility.public none])) ∧
    specCharOk '^' = false ∧
    (createRoom ⟨some "ab", none, none, none⟩ RLOutcome.ok none).1 =
      Except.error (ApiError.badApiArgument "name"
        "not allowed (too short, must be at least 3 characters)") ∧
    (createRoom ⟨some "list", none, none, none⟩ RLOutcome.ok none).1 =
      Except.error (ApiError.badApiArgument "name" "not allowed (reserved)") := by
  refine ⟨by decide, by decide, by decide, by decide⟩

/-- C2 counterexample: the claim says that under the code's numeric
`Role` encoding, Owner compares above Administrator; in `types.ts`
`Owner = -1` and `Administrator = 4`, so Owner compares below. -/
theorem role_owner_numeric_below_administrator :
    Role.num Role.owner < Role.num Role.administrator ∧
    Role.num Role.owner = -1 ∧ Role.num Role.administrator = 4 := by
  decide

/-- C2 amended: the role hierarchy Owner > Administrator > Moderator >
TrustedUser > RegisteredUser > UnregisteredUser is totally ordered and
the (spec-modelled) grant resolution is monotone in it; the numeric
`Role` encoding agrees with the hierarchy on the five non-Owner roles,
but Owner is encoded as the sentinel `-1`, numerically below every
other role. -/
theorem role_hierarchy_grants_monotone :
    (∀ (α : Type) (minRole : α → Role) (p : α) (r1 r2 : Role),
        r2.hierarchyRank ≤ r1.hierarchyRank →
        isAllowed minRole r2 p = true → isAllowed minRole r1 p = true) ∧
    (∀ r1 r2 : Role, r1 ≠ Role.owner → r2 ≠ Role.owner →
        (r1.hierarchyRank < r2.hierarchyRank ↔ r1.num < r2.num)) ∧
    Role.num Role.owner = -1 ∧
    (∀ r : Role, r ≠ Role.owner → Role.num Role.owner < r.num) := by
  refine ⟨?_, by decide, by decide, by decide⟩
  intro α minRole p r1 r2 h12 h2
  simp only [isAllowed, decide_eq_true_eq] at h2 ⊢
  omega

/-- C2 witness: the amended theorem at concrete inputs — a permission
whose minimum role is Moderator is granted to Administrator, the
numeric encoding agrees with the hierarchy on TrustedUser vs Moderator,
and Owner's `-1` lies below Administrator's `4`. -/
theorem role_hierarchy_grants_monotone_witness :
    isAllowed (fun _ : Unit => Role.moderator) Role.administrator () = true ∧
    (Role.trustedUser.hierarchyRank < Role.moderator.hierarchyRank ↔
      Role.trustedUser.num < Role.moderator.num) ∧
    Role.num Role.owner < Role.num Role.administrator :=
  ⟨role_hierarchy_grants_monotone.1 Unit (fun _ => Role.moderator) ()
      Role.administrator Role.moderator (by decide)
      (role_hierarchy_grants_monotone.1 Unit (fun _ => Role.moderator) ()
        Role.moderator Role.moderator (by decide) (by decide)),
    role_hierarchy_grants_monotone.2.1 Role.trustedUser Role.moderator
      (by decide) (by decide),
    role_hierarchy_grants_monotone.2.2.2 Role.administrator (by decide)⟩

/-- C3 counterexample: the claim says two room states that differ only
in grants (and votes, owner, userRoles) produce an identical sync
payload; but `RoomStateSyncable` keeps the computed `voteCounts` (and
`hasOwner`), so two states differing only in `votes` already produce
different payloads. -/
theorem toSyncable_leaks_voteCounts :
    toSyncable { sampleRoom with votes := [("vid1", ["c1"])] } ≠
      toSyncable sampleRoom := by
  decide

/-- C3 amended: the sync payload omits the raw `grants` and `userRoles`
entirely, and depends on `owner` and `votes` only through the computed
`hasOwner` flag and `voteCounts` totals: any two room states that agree
on every synced field — in particular states differing only in grants
and userRoles, or in owner/votes while preserving owner-presence and
vote totals — produce an identical payload, for every client. -/
theorem toSyncable_independent_of_grants_userRoles :
    ∀ r1 r2 : RoomState,
      r1.name = r2.name → r1.title = r2.title →
      r1.description = r2.description → r1.visibility = r2.visibility →
      r1.queueMode = r2.queueMode → r1.isTemporary = r2.isTemporary →
      r1.currentSource = r2.currentSource → r1.queue = r2.queue →
      r1.isPlaying = r2.isPlaying →
      r1.playbackPosition = r2.playbackPosition → r1.users = r2.users →
      r1.hasOwner = r2.hasOwner → r1.voteCounts = r2.voteCounts →
      toSyncable r1 = toSyncable r2 := by
  intro r1 r2 h1 h2 h3 h4 h5 h6 h7 h8 h9 h10 h11 h12 h13
  simp_all [toSyncable]

/-- C3 witness: two states differing only in `grants` and `userRoles`
yield the same payload. -/
theorem toSyncable_independent_witness :
    toSyncable { sampleRoom with
        grants := ⟨[(4, 7)]⟩, userRoles := [(Role.moderator, [1])] } =
      toSyncable sampleRoom :=
  toSyncable_independent_of_grants_userRoles
    { sampleRoom with
        grants := ⟨[(4, 7)]⟩, userRoles := [(Role.moderator, [1])] }
    sampleRoom rfl rfl rfl rfl rfl rfl rfl rfl rfl rfl rfl rfl rfl

/-- C7: every failure surfaced by the API error handler is either a
known `OttException`, reported as HTTP 400 with its stable name and
message, or an unknown failure, reported as HTTP 500 with exactly the
fixed generic body — in particular two arbitrary unknown failures
produce identical responses, so no internal name, message or stack text
reaches the response. -/
theorem errorHandler_two_shapes :
    ∀ e e2 : ApiError,
      (e.isOtt = true →
        (errorHandler e).status = 400 ∧
        (errorHandler e).error.name = e.errName ∧
        (errorHandler e).error.message = e.errMessage) ∧
      (e.isOtt = false →
        errorHandler e =
          ⟨500, false,
            ⟨"Unknown", "An unknown error occured. Try again later.",
              none, none⟩⟩) ∧
      (e.isOtt = false → e2.isOtt = false →
        errorHandler e = errorHandler e2) := by
  intro e e2
  refine ⟨?_, ?_, ?_⟩ <;> cases e <;> cases e2 <;>
    simp [errorHandler, ApiError.isOtt, ApiError.errName, ApiError.errMessage]

/-- C7 witness: the handler at concrete errors — a
`BadApiArgumentException` yields 400 with its name and message, and a
raw `TypeError` carrying internal text yields exactly the generic 500
body, identical to the response for a different internal error. -/
theorem errorHandler_two_shapes_witness :
    ((errorHandler (ApiError.badApiArgument "name" "missing")).status = 400 ∧
      (errorHandler (ApiError.badApiArgument "name" "missing")).error.name =
        (ApiError.badApiArgument "name" "missing").errName ∧
      (errorHandler (ApiError.badApiArgument "name" "missing")).error.message =
        (ApiError.badApiArgument "name" "missing").errMessage) ∧
    errorHandler (ApiError.plainError "TypeError" "secret detail" "stack") =
      ⟨500, false,
        ⟨"Unknown", "An unknown error occured. Try again later.",
          none, none⟩⟩ ∧
    errorHandler (ApiError.plainError "TypeError" "secret detail" "stack") =
      errorHandler (ApiError.plainError "RangeError" "other detail" "trace") :=
  ⟨(errorHandler_two_shapes (ApiError.badApiArgument "name" "missing")
      (ApiError.plainError "RangeError" "other detail" "trace")).1 (by decide),
    (errorHandler_two_shapes
      (ApiError.plainError "TypeError" "secret detail" "stack")
      (ApiError.plainError "RangeError" "other detail" "trace")).2.1
      (by decide),
    (errorHandler_two_shapes
      (ApiError.plainError "TypeError" "secret detail" "stack")
      (ApiError.plainError "RangeError" "other detail" "trace")).2.2
      (by decide) (by decide)⟩

/-- Complete case analysis of `createRoom`: validation failure (empty
trace), rate-limited reply or rate-limiter failure (failed consumption,
no creation), or — only with a successful consumption — the creation,
immediately preceded by that consumption. -/
lemma createRoom_cases (body : CreateBody) (rl : RLOutcome)
    (user : Option User) :
    (∃ e, createRoom body rl user = (.error e, [])) ∨
    (∃ p, createRoom body rl user =
      (.ok .rateLimited, [.rateLimitConsumed p false])) ∨
    (∃ e p, createRoom body rl user =
      (.error e, [.rateLimitConsumed p false])) ∨
    (rl = RLOutcome.ok ∧ ∃ p n t v,
      createRoom body rl user = (.ok .created,
        [.rateLimitConsumed p true,
         .roomManagerCreateRoom n t v user])) := by
  unfold createRoom
  cases hv : createRoomValidationError body with
  | some e => exact Or.inl ⟨e, rfl⟩
  | none =>
    cases rl with
    | limited => exact Or.inr (Or.inl ⟨_, rfl⟩)
    | failure => exact Or.inr (Or.inr (Or.inl ⟨_, _, rfl⟩))
    | ok => exact Or.inr (Or.inr (Or.inr ⟨rfl, _, _, _, _, rfl⟩))

/-- C8: whenever `createRoom` reaches `roommanager.CreateRoom`, the
rate limiter was consumed successfully immediately before it, and
nothing else happened: a rejected or failed rate-limit consumption, or
any name/visibility validation failure, never creates a room. -/
theorem createRoom_rateLimit_gate :
    ∀ (body : CreateBody) (rl : RLOutcome) (user : Option User)
      (n : String) (t : Bool) (v : Visibility) (o : Option User),
      CreateEvent.roomManagerCreateRoom n t v o ∈ (createRoom body rl user).2 →
      rl = RLOutcome.ok ∧
      ∃ p, (createRoom body rl user).2 =
          [CreateEvent.rateLimitConsumed p true,
           CreateEvent.roomManagerCreateRoom n t v o] ∧
        (createRoom body rl user).1 = Except.ok CreateResponse.created := by
  intro body rl user n t v o h
  rcases createRoom_cases body rl user with
    ⟨e, he⟩ | ⟨p, hp⟩ | ⟨e, p, hp⟩ | ⟨hrl, p, n', t', v', hp⟩
  · rw [he] at h; simp at h
  · rw [hp] at h; simp at h
  · rw [hp] at h; simp at h
  · rw [hp] at h
    simp only [List.mem_cons, List.mem_singleton] at h
    rcases h with h | h | h
    · exact absurd h (by simp)
    · obtain ⟨hn, ht, hv, ho⟩ := CreateEvent.roomManagerCreateRoom.inj h
      subst hn ht hv ho
      exact ⟨hrl, p, by rw [hp], by rw [hp]⟩
    · exact absurd h (by simp)

/-- C5: an `ApplySettings` request whose visibility or queueMode value
is outside the respective enum fails with a `BadApiArgumentException`
before any collaborator is called, and a request whose string field
exceeds its length bound fails inside the (spec-modelled) settings
handler — in every case the request merges nothing: the room state is
returned unchanged and nothing is persisted. -/
theorem applySettings_validation_atomic :
    ∀ (tM dM : Nat) (body : PatchBody) (user : Option User)
      (storageOk : Bool) (room : RoomState),
      (strTruthy body.visibility = true →
        body.visibility.bind visibilityFromString = none →
        patchRoomStep tM dM body user storageOk room =
          (.error (.badApiArgument "visibility" "must be one of"),
            room, [])) ∧
      ((strTruthy body.visibility &&
          (body.visibility.bind visibilityFromString).isNone) = false →
        strTruthy body.queueMode = true →
        body.queueMode.bind queueModeFromString = none →
        patchRoomStep tM dM body user storageOk room =
          (.error (.badApiArgument "queueMode" "must be one of"),
            room, [])) ∧
      (∀ t, patchGuardError body room = none →
        body.title = some t → t.length > tM →
        patchRoomStep tM dM body user storageOk room =
          (.error (.ottOther "ValidationError" "title too long"), room,
            [.getClient, .processRequestDirect])) := by
  intro tM dM body user storageOk room
  refine ⟨?_, ?_, ?_⟩
  · intro hv hb
    have hg : patchGuardError body room =
        some (.badApiArgument "visibility" "must be one of") := by
      unfold patchGuardError
      simp [hv, hb]
    exact patchRoomStep_guard_some hg
  · intro h1 hq hb
    have hg : patchGuardError body room =
        some (.badApiArgument "queueMode" "must be one of") := by
      unfold patchGuardError
      simp [h1, hq, hb]
    exact patchRoomStep_guard_some hg
  · intro t hg ht hlen
    have ha : applySettings tM dM (settingsOf body) room =
        .error (.ottOther "ValidationError" "title too long") := by
      unfold applySettings settingsOf
      simp [ht, hlen]
    unfold patchRoomStep
    rw [hg, ha]

/-- C5 witness: the three validation failures at concrete inputs — a
bogus visibility, a bogus queueMode, and (with title bound 3) an
overlong title — each produce the validation error and leave the room
untouched. -/
theorem applySettings_validation_atomic_witness :
    patchRoomStep 255 255 ⟨some "bogus", none, none, none, none, none, false⟩
        none true sampleRoom =
      (.error (.badApiArgument "visibility" "must be one of"),
        sampleRoom, []) ∧
    patchRoomStep 255 255 ⟨none, some "bogus", none, none, none, none, false⟩
        none true sampleRoom =
      (.error (.badApiArgument "queueMode" "must be one of"),
        sampleRoom, []) ∧
    patchRoomStep 3 255 ⟨none, none, some "abcd", none, none, none, false⟩
        none true sampleRoom =
      (.error (.ottOther "ValidationError" "title too long"), sampleRoom,
        [.getClient, .processRequestDirect]) :=
  ⟨(applySettings_validation_atomic 255 255
      ⟨some "bogus", none, none, none, none, none, false⟩ none true
      sampleRoom).1 (by decide) (by decide),
    (applySettings_validation_atomic 255 255
      ⟨none, some "bogus", none, none, none, none, false⟩ none true
      sampleRoom).2.1 (by decide) (by decide) (by decide),
    (applySettings_validation_atomic 3 255
      ⟨none, none, some "abcd", none, none, none, false⟩ none true
      sampleRoom).2.2 "abcd" (by decide) (by decide) (by decide)⟩

/-- C6: across every sequence of settings-update requests — the only
path among the sources that writes to the storage collaborator — every
room passed to `storage.updateRoom` has `isTemporary = false`: a
temporary room is never persisted. -/
theorem temporary_room_never_persisted :
    ∀ (tM dM : Nat) (steps : List (PatchBody × Option User × Bool))
      (room r : RoomState),
      ApiEvent.storageUpdateRoom r ∈ (runPatchSeq tM dM steps room).2 →
      r.isTemporary = false := by
  intro tM dM steps
  induction steps with
  | nil => intro room r h; simp [runPatchSeq] at h
  | cons s rest ih =>
    intro room r h
    obtain ⟨b, u, so⟩ := s
    simp only [runPatchSeq] at h
    rw [List.mem_append] at h
    rcases h with h | h
    · exact patchRoomStep_storage_not_temporary h
    · exact ih _ _ h

/-- C6 witness: a title update on a permanent room does reach the
storage collaborator, and the room it persists is non-temporary. -/
theorem temporary_room_never_persisted_witness :
    ApiEvent.storageUpdateRoom { sampleRoom with title := "hello" } ∈
      (runPatchSeq 255 255
        [(⟨none, none, some "hello", none, none, none, false⟩, none, true)]
        sampleRoom).2 ∧
    ({ sampleRoom with title := "hello" } : RoomState).isTemporary = false :=
  ⟨by decide,
    temporary_room_never_persisted 255 255
      [(⟨none, none, some "hello", none, none, none, false⟩, none, true)]
      sampleRoom { sampleRoom with title := "hello" } (by decide)⟩

/-- C10: the ownership-claim edge cases of the settings update — a
claim on a temporary room fails with a `BadApiArgumentException`
leaving the room untouched; a claim on a room that already has an owner
likewise; a claim by an unauthenticated requester gets the 401 reply
and the room's owner stays `none`; an authenticated user claiming an
ownerless permanent room becomes its owner. -/
theorem patchRoom_claim_edge_cases :
    ∀ (tM dM : Nat) (body : PatchBody) (user : Option User)
      (storageOk : Bool) (room room2 : RoomState) (u : User),
      body.claim = true →
      ((room.isTemporary = true →
        ∃ a r, patchRoomStep tM dM body user storageOk room =
          (.error (.badApiArgument a r), room, [])) ∧
       (room.owner = some u →
        ∃ a r, patchRoomStep tM dM body user storageOk room =
          (.error (.badApiArgument a r), room, [])) ∧
       (patchGuardError body room = none →
        applySettings tM dM (settingsOf body) room = .ok room2 →
        room.isTemporary = false → room.owner = none →
        (user = none →
          (patchRoomStep tM dM body user storageOk room).1 =
            .ok .unauthorized ∧
          ((patchRoomStep tM dM body user storageOk room).2.1).owner =
            none) ∧
        (user = some u →
          ((patchRoomStep tM dM body user storageOk room).2.1).owner =
            some u ∧
          ∃ resp, (patchRoomStep tM dM body user storageOk room).1 =
            .ok resp))) := by
  intro tM dM body user storageOk room room2 u hclaim
  refine ⟨?_, ?_, ?_⟩
  · intro ht
    obtain ⟨a, r, hg⟩ := patchGuardError_claim_temporary hclaim ht
    exact ⟨a, r, patchRoomStep_guard_some hg⟩
  · intro ho
    obtain ⟨a, r, hg⟩ := patchGuardError_claim_owned hclaim ho
    exact ⟨a, r, patchRoomStep_guard_some hg⟩
  · intro hg ha htemp howner
    obtain ⟨h2o, h2t⟩ := applySettings_ok_fields ha
    have h2temp : room2.isTemporary = false := h2t.trans htemp
    have h2own : room2.owner = none := h2o.trans howner
    constructor
    · intro hu
      subst hu
      have key : patchRoomStep tM dM body none storageOk room =
          (.ok .unauthorized, room2, [.getClient, .processRequestDirect]) := by
        unfold patchRoomStep
        rw [hg, ha]
        simp [h2temp, h2own, hclaim]
      rw [key]
      exact ⟨rfl, h2own⟩
    · intro hu
      subst hu
      have key : patchRoomStep tM dM body (some u) storageOk room =
          ((if storageOk then .ok .success else .ok .storageFailed),
            { room2 with owner := some u },
            [.getClient, .processRequestDirect,
             .storageUpdateRoom { room2 with owner := some u }]) := by
        unfold patchRoomStep
        rw [hg, ha]
        simp [h2temp, h2own, hclaim]
      rw [key]
      refine ⟨rfl, ?_⟩
      cases storageOk
      · exact ⟨_, rfl⟩
      · exact ⟨_, rfl⟩

/-- C10 witness: the four edge cases at concrete inputs — a claim body
against a temporary room, an owned room, and an ownerless permanent
room with and without an authenticated user. -/
theorem patchRoom_claim_edge_cases_witness :
    (∃ a r, patchRoomStep 255 255
        ⟨none, none, none, none, none, none, true⟩ none true
        { sampleRoom with isTemporary := true } =
      (.error (.badApiArgument a r),
        { sampleRoom with isTemporary := true }, [])) ∧
    (∃ a r, patchRoomStep 255 255
        ⟨none, none, none, none, none, none, true⟩ none true
        { sampleRoom with owner := some ⟨1, "alice"⟩ } =
      (.error (.badApiArgument a r),
        { sampleRoom with owner := some ⟨1, "alice"⟩ }, [])) ∧
    ((patchRoomStep 255 255 ⟨none, none, none, none, none, none, true⟩
        none true sampleRoom).1 = .ok .unauthorized ∧
      ((patchRoomStep 255 255 ⟨none, none, none, none, none, none, true⟩
        none true sampleRoom).2.1).owner = none) ∧
    (((patchRoomStep 255 255 ⟨none, none, none, none, none, none, true⟩
        (some ⟨1, "alice"⟩) true sampleRoom).2.1).owner =
      some ⟨1, "alice"⟩ ∧
      ∃ resp, (patchRoomStep 255 255
        ⟨none, none, none, none, none, none, true⟩
        (some ⟨1, "alice"⟩) true sampleRoom).1 = .ok resp) :=
  ⟨(patchRoom_claim_edge_cases 255 255
      ⟨none, none, none, none, none, none, true⟩ none true
      { sampleRoom with isTemporary := true } sampleRoom ⟨1, "alice"⟩
      rfl).1 rfl,
    (patchRoom_claim_edge_cases 255 255
      ⟨none, none, none, none, none, none, true⟩ none true
      { sampleRoom with owner := some ⟨1, "alice"⟩ } sampleRoom
      ⟨1, "alice"⟩ rfl).2.1 rfl,
    ((patchRoom_claim_edge_cases 255 255
      ⟨none, none, none, none, none, none, true⟩ none true
      sampleRoom sampleRoom ⟨1, "alice"⟩ rfl).2.2 (by decide) (by decide)
      rfl rfl).1 rfl,
    ((patchRoom_claim_edge_cases 255 255
      ⟨none, none, none, none, none, none, true⟩ (some ⟨1, "alice"⟩) true
      sampleRoom sampleRoom ⟨1, "alice"⟩ rfl).2.2 (by decide) (by decide)
      rfl rfl).2 rfl⟩

/-- C8 witness: a valid permanent-room creation request whose
rate-limit consumption succeeded — the trace is exactly the successful
200-point consumption followed by the `CreateRoom` call. -/
theorem createRoom_rateLimit_gate_witness :
    RLOutcome.ok = RLOutcome.ok ∧
    ∃ p, (createRoom ⟨some "abc", none, none, none⟩ RLOutcome.ok none).2 =
        [CreateEvent.rateLimitConsumed p true,
         CreateEvent.roomManagerCreateRoom "abc" false Visibility.public none] ∧
      (createRoom ⟨some "abc", none, none, none⟩ RLOutcome.ok none).1 =
        Except.ok CreateResponse.created :=
  createRoom_rateLimit_gate ⟨some "abc", none, none, none⟩ RLOutcome.ok none
    "abc" false Visibility.public none (by decide)

/-- C4 counterexample: the claim says no inbound mutation path delivers
a request to `Room.processRequest` without going through the
ClientManager routing layer; but a plain settings update (the `PATCH`
path) calls `room.processRequest` directly and never goes through
`client.makeRoomRequest` — the FIXME at `room.ts` line 149 acknowledges
exactly this. -/
theorem patchRoom_bypasses_client_routing :
    ApiEvent.processRequestDirect ∈
      (patchRoomStep 255 255 ⟨none, none, none, none, none, none, false⟩
        none true sampleRoom).2.2 ∧
    ApiEvent.makeRoomRequest ∉
      (patchRoomStep 255 255 ⟨none, none, none, none, none, none, false⟩
        none true sampleRoom).2.2 := by
  decide

/-- C4 amended: the undo and vote mutation paths resolve the client and
deliver their requests only through `client.makeRoomRequest` (the
ClientManager routing layer), never directly; the settings-update path
resolves the client through `clientmanager.getClient` but then delivers
its `ApplySettingsRequest` directly to `Room.processRequest`, bypassing
the cross-node forwarding (noted as a FIXME in the source). -/
theorem mutation_request_routing :
    (∀ d, ApiEvent.processRequestDirect ∉ (undoEvent d).2 ∧
      ((undoEvent d).1 = .ok () →
        (undoEvent d).2 = [ApiEvent.getClient, ApiEvent.makeRoomRequest])) ∧
    (∀ s i, ApiEvent.processRequestDirect ∉ (addVote s i).2 ∧
      ((addVote s i).1 = .ok () →
        (addVote s i).2 = [ApiEvent.getClient, ApiEvent.makeRoomRequest])) ∧
    (∀ s i, ApiEvent.processRequestDirect ∉ (removeVote s i).2 ∧
      ((removeVote s i).1 = .ok () →
        (removeVote s i).2 = [ApiEvent.getClient, ApiEvent.makeRoomRequest])) ∧
    (∀ (tM dM : Nat) (body : PatchBody) (user : Option User) (so : Bool)
      (room : RoomState),
      ApiEvent.processRequestDirect ∈
        (patchRoomStep tM dM body user so room).2.2 →
      ∃ rest, (patchRoomStep tM dM body user so room).2.2 =
        ApiEvent.getClient :: ApiEvent.processRequestDirect :: rest) := by
  refine ⟨?_, ?_, ?_, ?_⟩
  · intro d
    cases d <;> simp [undoEvent]
  · intro s i
    unfold addVote
    split
    · simp
    split
    · simp
    · simp
  · intro s i
    unfold removeVote
    split
    · simp
    split
    · simp
    · simp
  · intro tM dM body user so room h
    rcases patchRoomStep_trace_shape tM dM body user so room with h0 | hr
    · rw [h0] at h
      simp at h
    · exact hr

/-- C4 witness: the routing facts at concrete inputs — an undo, an add
vote and a remove vote each produce exactly the routed delivery, and a
concrete settings update's trace starts with the client resolution
followed by the direct delivery. -/
theorem mutation_request_routing_witness :
    (undoEvent (some 1)).2 = [ApiEvent.getClient, ApiEvent.makeRoomRequest] ∧
    (addVote (some "direct") (some "abc123")).2 =
      [ApiEvent.getClient, ApiEvent.makeRoomRequest] ∧
    (removeVote (some "direct") (some "abc123")).2 =
      [ApiEvent.getClient, ApiEvent.makeRoomRequest] ∧
    ∃ rest, (patchRoomStep 255 255
        ⟨none, none, some "new title", none, none, none, false⟩ none true
        sampleRoom).2.2 =
      ApiEvent.getClient :: ApiEvent.processRequestDirect :: rest :=
  ⟨(mutation_request_routing.1 (some 1)).2 (by decide),
    (mutation_request_routing.2.1 (some "direct") (some "abc123")).2
      (by decide),
    (mutation_request_routing.2.2.1 (some "direct") (some "abc123")).2
      (by decide),
    mutation_request_routing.2.2.2 255 255
      ⟨none, none, some "new title", none, none, none, false⟩ none true
      sampleRoom (by decide)⟩

/-- C9 counterexample: the claim says the list returned to a request
without a valid API key contains exactly the public rooms; but when no
API key is configured in the environment, `req.get("apikey") ===
process.env.OPENTOGETHERTUBE_API_KEY` is `undefined === undefined`, so
a request with no key at all is treated as authorized and receives
non-public rooms too. -/
theorem listRooms_unset_apikey_discloses :
    listRooms none none [{ sampleRoom with visibility := Visibility.priv }] =
      ListResult.ok
        [roomListItem { sampleRoom with visibility := Visibility.priv }] ∧
    ({ sampleRoom with visibility := Visibility.priv } : RoomState).visibility
      ≠ Visibility.public := by
  decide

/-- C9 amended: provided an API key is configured in the environment,
a request presenting no key receives exactly the rooms with visibility
public, ordered by connected-user count descending with ties broken by
room name ascending, and a request presenting a (nonempty) key
different from the configured one is rejected rather than served.  With
no key configured, a keyless request is treated as authorized and
receives every room. -/
theorem listRooms_public_only_sorted :
    ∀ (k : String) (rooms : List RoomState),
      (∃ l, listRooms (some k) none rooms = ListResult.ok l ∧
        List.Perm l
          ((rooms.filter
            (fun r => r.visibility == Visibility.public)).map roomListItem) ∧
        List.Sorted listItemOrder l) ∧
      (∀ s, s ≠ "" → s ≠ k →
        listRooms (some k) (some s) rooms = ListResult.invalidApiKey) := by
  intro k rooms
  constructor
  · refine ⟨List.insertionSort listItemOrder
        ((rooms.filter
          (fun r => r.visibility == Visibility.public)).map roomListItem),
      ?_, List.perm_insertionSort _ _, List.sorted_insertionSort _ _⟩
    unfold listRooms
    simp [strTruthy]
  · intro s hs hk
    unfold listRooms
    have h1 : strTruthy (some s) = true := by simp [strTruthy, hs]
    have h2 : ((some s : Option String) == some k) = false := by
      simp [hk]
    simp [h1, h2]

/-- C9 witness: the amended theorem at a configured key, one public
room, and a wrong key. -/
theorem listRooms_public_only_sorted_witness :
    (∃ l, listRooms (some "secret") none [sampleRoom] = ListResult.ok l ∧
      List.Perm l
        (([sampleRoom].filter
          (fun r => r.visibility == Visibility.public)).map roomListItem) ∧
      List.Sorted listItemOrder l) ∧
    listRooms (some "secret") (some "wrong") [sampleRoom] =
      ListResult.invalidApiKey :=
  ⟨(listRooms_public_only_sorted "secret" [sampleRoom]).1,
    (listRooms_public_only_sorted "secret" [sampleRoom]).2 "wrong"
      (by decide) (by decide)⟩

end OTT
